import Mathlib

/-!
Verification development for the Synapaxon frontend glue unit:
the Remote Inference Client (src/src/api/aiapi.ts, axios functions) and
the MediaDisplay viewer component (same file, second part).  The
definitions below are shallow embeddings translated directly from the
TypeScript source; the theorems settle the testable properties of the
specification against them.
-/

namespace Spec2Proof

/-! ## JavaScript helpers

JavaScript truthiness for optional string fields: a field is falsy when
it is absent (undefined or null) or the empty string.  The expression
written in the source as a short-circuit chain `a || b` is modelled by
jsOrStr. -/

/-- JavaScript short-circuit `a || b` where a is an optional string field
and b a string: the empty string and an absent field are falsy. -/
def jsOrStr (a : Option String) (b : String) : String :=
  match a with
  | some s => if s = "" then b else s
  | none => b

/-! ## Remote Inference Client: data model (aiapi.ts lines 20-33, 123-136, 165-182) -/

/-- Interface AIQuestionData (aiapi.ts lines 21-27). -/
structure AIQuestionData where
  id : String
  questionText : String
  options : List String
  correctAnswer : Nat
  explanation : String
deriving Repr, DecidableEq

/-- Interface AIGenerateQuestionsResponse (aiapi.ts lines 29-33).  The
TypeScript type declares success as a required boolean, but a failed
transport response body cast to this type with `as` may lack any of the
fields at runtime, so every field is modelled as optional. -/
structure AIGenerateQuestionsResponse where
  success : Option Bool
  data : Option (List AIQuestionData)
  message : Option String
deriving Repr, DecidableEq

/-- Interface AIExplainChoiceResponse (aiapi.ts lines 123-127), with the
same caveat about runtime bodies cast with `as`. -/
structure AIExplainChoiceResponse where
  success : Option Bool
  explanation : Option String
  message : Option String
deriving Repr, DecidableEq

/-- Chat message role, interface AIChatMessage (aiapi.ts lines 166-169). -/
inductive ChatRole where
  | user
  | ai
deriving Repr, DecidableEq

/-- Interface AIChatMessage (aiapi.ts lines 166-169). -/
structure AIChatMessage where
  type : ChatRole
  content : String
deriving Repr, DecidableEq

/-- Interface AIChatRequestPayload (aiapi.ts lines 171-175). -/
structure AIChatRequestPayload where
  message : String
  history : Option (List AIChatMessage) := none
  thread_id : Option String := none
deriving Repr, DecidableEq

/-- Interface AIChatResponse (aiapi.ts lines 177-182): the shape every
call of sendChatMessageToAI resolves with. -/
structure AIChatResponse where
  response : String
  thread_id : String
  success : Option Bool
  message : Option String
deriving Repr, DecidableEq

/-- A structured JSON body carried by a failed (or successful) transport
response.  All fields are optional: a real backend error body may carry
any subset of them.  A body that is a falsy JavaScript value (undefined,
null, empty string) is modelled as `Option ErrorBody = none` at the use
sites, so an ErrorBody value always stands for a truthy body. -/
structure ErrorBody where
  detail : Option String := none
  message : Option String := none
  success : Option Bool := none
  data : Option (List AIQuestionData) := none
  explanation : Option String := none
deriving Repr, DecidableEq

/-- Outcome of the transport layer when an axios call throws: either a
response was received (whose decoded body may itself be falsy, modelled
by the inner Option), or no response at all arrived (pure network
failure, or a non-axios error). -/
inductive TransportFailure where
  | withResponse (body : Option ErrorBody)
  | noResponse
deriving Repr, DecidableEq

/-! ## Remote Inference Client: catch-path normalization

Each function below is the literal translation of one catch block of
aiapi.ts.  The source pattern for the three question and explanation
operations is

  return error.response.data as T || \x7b success: false, ...,
    message: error.response.data?.detail || error.response.data?.message || FALLBACK \x7d;

so a truthy body is returned as-is and the synthesized record is built
only when the body is falsy (in which case the optional-chaining reads
on it yield undefined and the message is always the fallback). -/

/-- Generic fallback message of the document and text operations
(aiapi.ts lines 74 and 110). -/
def aiServiceFallbackMsg : String :=
  "An unexpected error occurred with the AI service."

/-- No-response fallback message of the document and text operations
(aiapi.ts lines 80 and 116). -/
def aiServiceConnectMsg : String :=
  "Failed to connect to the AI service or an unexpected error occurred."

/-- Catch block of generateQuestionsFromDocumentAI (aiapi.ts lines 67-82). -/
def generateQuestionsFromDocumentAIOnError :
    TransportFailure → AIGenerateQuestionsResponse
  | .withResponse (some b) =>
      { success := b.success, data := b.data, message := b.message }
  | .withResponse none =>
      { success := some false, data := none,
        message := some (jsOrStr none (jsOrStr none aiServiceFallbackMsg)) }
  | .noResponse =>
      { success := some false, data := none,
        message := some aiServiceConnectMsg }

/-- Catch block of generateQuestionsFromTextAI (aiapi.ts lines 104-118);
identical in structure and fallback strings to the document operation. -/
def generateQuestionsFromTextAIOnError :
    TransportFailure → AIGenerateQuestionsResponse
  | .withResponse (some b) =>
      { success := b.success, data := b.data, message := b.message }
  | .withResponse none =>
      { success := some false, data := none,
        message := some (jsOrStr none (jsOrStr none aiServiceFallbackMsg)) }
  | .noResponse =>
      { success := some false, data := none,
        message := some aiServiceConnectMsg }

/-- Generic fallback message of the explanation operation (aiapi.ts line 153). -/
def aiExplainFallbackMsg : String :=
  "An unexpected error with the AI explanation service."

/-- No-response fallback message of the explanation operation (aiapi.ts line 159). -/
def aiExplainConnectMsg : String :=
  "Failed to connect to the AI explanation service or an unexpected error occurred."

/-- Catch block of explainAnswerChoiceAI (aiapi.ts lines 147-161). -/
def explainAnswerChoiceAIOnError :
    TransportFailure → AIExplainChoiceResponse
  | .withResponse (some b) =>
      { success := b.success, explanation := b.explanation, message := b.message }
  | .withResponse none =>
      { success := some false, explanation := none,
        message := some (jsOrStr none (jsOrStr none aiExplainFallbackMsg)) }
  | .noResponse =>
      { success := some false, explanation := none,
        message := some aiExplainConnectMsg }

/-- Default error message of the chat operation (aiapi.ts line 198). -/
def chatDefaultErrorMsg : String :=
  "An unexpected error occurred with the AI chat service."

/-- Catch block of sendChatMessageToAI (aiapi.ts lines 196-209): unlike
the other three operations, the chat catch never returns the body as-is;
it always builds a fresh record, deriving the message by the chain
error.response.data.detail || error.response.data.message || default
when a truthy body is present. -/
def sendChatMessageToAIOnError (payload : AIChatRequestPayload) :
    TransportFailure → AIChatResponse
  | f =>
    let errorMessage :=
      match f with
      | .withResponse (some b) => jsOrStr b.detail (jsOrStr b.message chatDefaultErrorMsg)
      | .withResponse none => chatDefaultErrorMsg
      | .noResponse => chatDefaultErrorMsg
    { success := some false,
      response := "",
      thread_id := jsOrStr payload.thread_id "",
      message := some errorMessage }

/-- Body decoded on transport success for the chat endpoint (the backend
response of aiapi.ts line 188); its own success flag is optional since
the remote body need not include one. -/
structure ChatBackendBody where
  response : String
  thread_id : String
  success : Option Bool := none
  message : Option String := none
deriving Repr, DecidableEq

/-- Success path of sendChatMessageToAI (aiapi.ts line 194): the spread
of the decoded body followed by an explicit success key, so the success
key written last overwrites any success field of the body. -/
def sendChatMessageToAIOnSuccess (body : ChatBackendBody) : AIChatResponse :=
  { response := body.response,
    thread_id := body.thread_id,
    success := some true,
    message := body.message }

/-- Modelled from the specification wording of the fallback priority for
error messages: the detail field when present and non-empty, else the
message field when present and non-empty, else the given fallback
string.  Defined independently of the code-side jsOrStr chain so that
the chat theorem below relates the two. -/
def specFallbackChain (detail msg : Option String) (fb : String) : String :=
  match detail with
  | some d =>
      if d = "" then
        match msg with
        | some m => if m = "" then fb else m
        | none => fb
      else d
  | none =>
      match msg with
      | some m => if m = "" then fb else m
      | none => fb

/-! ## Media Viewer: descriptor and URL resolution (aiapi.ts second part) -/

/-- Media descriptor consumed by MediaDisplay: path, mimetype, type and
originalname are all optional at runtime; a path that is the empty
string is falsy in JavaScript. -/
structure MediaDescriptor where
  path : Option String := none
  mimetype : Option String := none
  type : Option String := none
  originalname : Option String := none
deriving Repr, DecidableEq

/-- First regex alternative of resolveMediaUrl (line 236). -/
def watchPat : List Char := "youtube.com/watch?v=".toList

/-- Second regex alternative of resolveMediaUrl (line 236). -/
def shortPat : List Char := "youtu.be/".toList

/-- Greedy capture group ([^&]+): the maximal run of characters other
than an ampersand, failing when that run is empty. -/
def captureNonAmp (l : List Char) : Option (List Char) :=
  let cap := l.takeWhile (fun c => c ≠ '&')
  if cap = [] then none else some cap

/-- Attempt to match one literal alternative at the head of the list and
then the capture group right after it. -/
def matchPatAt (pat l : List Char) : Option (List Char) :=
  if l.take pat.length = pat then captureNonAmp (l.drop pat.length) else none

/-- The JavaScript regex scan of line 236: positions are tried left to
right, and at each position the first alternative is tried before the
second; the first position where an alternative matches with a
non-empty capture wins. -/
def ytMatchList : List Char → Option (List Char)
  | [] => none
  | c :: rest =>
    match matchPatAt watchPat (c :: rest) with
    | some cap => some cap
    | none =>
      match matchPatAt shortPat (c :: rest) with
      | some cap => some cap
      | none => ytMatchList rest

/-- String-level wrapper of the regex scan; returns the captured video
id when the url matches the YouTube watch or short-link pattern. -/
def ytMatch (s : String) : Option String :=
  (ytMatchList s.toList).map fun l => String.mk l

/-- resolveMediaUrl (aiapi.ts lines 231-243): null when the path is
falsy, the embed url rewritten from the capture when the YouTube regex
matches, the raw path otherwise. -/
def resolveMediaUrl (media : MediaDescriptor) : Option String :=
  match media.path with
  | none => none
  | some rawUrl =>
    if rawUrl = "" then none
    else
      match ytMatch rawUrl with
      | some vid => some ("https://www.youtube.com/embed/" ++ vid)
      | none => some rawUrl

/-! ## Media Viewer: render-strategy selection (renderMedia, lines 317-417) -/

/-- Substring membership test over character lists, modelling the
JavaScript String.includes method. -/
def hasSubList (pat : List Char) : List Char → Bool
  | [] => pat.isEmpty
  | c :: rest => (List.take pat.length (c :: rest) == pat) || hasSubList pat rest

/-- JavaScript String.includes on strings. -/
def strIncludes (s sub : String) : Bool := hasSubList sub.toList s.toList

/-- JavaScript optional-chaining startsWith on an optional string field:
absent field is falsy. -/
def optStartsWith (o : Option String) (p : String) : Bool :=
  match o with
  | some s => s.startsWith p
  | none => false

/-- The rendering strategies renderMedia can select, one per branch of
the if/else chain of lines 322-412. -/
inductive RenderStrategy where
  | youtubeFrame
  | websiteFrame
  | image
  | video
  | pdfEmbed
  | documentLink
  | downloadLink
deriving Repr, DecidableEq

/-- isYouTube check (line 319): the resolved url contains the substring
of the embed path; a null url is falsy. -/
def isYouTubeOf (m : MediaDescriptor) : Bool :=
  match resolveMediaUrl m with
  | some u => strIncludes u "youtube.com/embed/"
  | none => false

/-- isWebsite check (line 320). -/
def isWebsiteOf (m : MediaDescriptor) : Bool :=
  (m.mimetype == some "text/url") || (m.type == some "url")

/-- Image branch condition (line 370). -/
def isImageOf (m : MediaDescriptor) : Bool := optStartsWith m.mimetype "image/"

/-- Video branch condition (line 379). -/
def isVideoOf (m : MediaDescriptor) : Bool := optStartsWith m.mimetype "video/"

/-- PDF branch condition (line 388). -/
def isPdfOf (m : MediaDescriptor) : Bool :=
  optStartsWith m.mimetype "application/pdf"

/-- Word-processor document branch condition (lines 398-399). -/
def isWordOf (m : MediaDescriptor) : Bool :=
  optStartsWith m.mimetype "application/msword" ||
  optStartsWith m.mimetype "application/vnd.openxmlformats-officedocument"

/-- renderMedia (lines 317-417) as strategy selection: the literal
if/else chain of the source, evaluated top to bottom. -/
def renderMedia (m : MediaDescriptor) : RenderStrategy :=
  if isYouTubeOf m then .youtubeFrame
  else if isWebsiteOf m then .websiteFrame
  else if isImageOf m then .image
  else if isVideoOf m then .video
  else if isPdfOf m then .pdfEmbed
  else if isWordOf m then .documentLink
  else .downloadLink

/-- The ordered (predicate, strategy) rule list stated by the
specification: YouTube, website, image, video, pdf, word processor, and
the generic download link as the default. -/
def orderedChecks (m : MediaDescriptor) : List (Bool × RenderStrategy) :=
  [ (isYouTubeOf m, .youtubeFrame),
    (isWebsiteOf m, .websiteFrame),
    (isImageOf m, .image),
    (isVideoOf m, .video),
    (isPdfOf m, .pdfEmbed),
    (isWordOf m, .documentLink) ]

/-- First-match-wins evaluation of an ordered rule list, defaulting to
the generic download link. -/
def firstMatch : List (Bool × RenderStrategy) → RenderStrategy
  | [] => .downloadLink
  | (b, r) :: rest => if b then r else firstMatch rest

/-- The value the MediaDisplay component returns (lines 215-469),
abstracted to the strategy its modal content renders with: null (none)
when the media prop is absent or its path is falsy (line 229), the
component markup (some strategy) otherwise. -/
def mediaDisplay (media : Option MediaDescriptor) : Option RenderStrategy :=
  match media with
  | none => none
  | some m =>
    match m.path with
    | none => none
    | some p => if p = "" then none else some (renderMedia m)

/-! ## Media Viewer: window geometry state machine (lines 216-315) -/

/-- A 2d point with rational coordinates (JavaScript numbers carry
fractional viewport offsets, so integer coordinates would be lossy). -/
structure Point where
  x : ℚ
  y : ℚ
deriving Repr, DecidableEq

/-- A window size. -/
structure WinSize where
  width : ℚ
  height : ℚ
deriving Repr, DecidableEq

/-- The useState pieces of MediaDisplay relevant to geometry
(lines 216-226). -/
structure ViewerState where
  isModalOpen : Bool
  position : Point
  size : WinSize
  isDragging : Bool
  isResizing : Bool
  dragStart : Point
  resizeStart : WinSize
  error : Option String
deriving Repr, DecidableEq

/-- Initial component state (lines 216-223). -/
def initialViewerState : ViewerState :=
  { isModalOpen := false,
    position := { x := 0, y := 0 },
    size := { width := 800, height := 600 },
    isDragging := false,
    isResizing := false,
    dragStart := { x := 0, y := 0 },
    resizeStart := { width := 0, height := 0 },
    error := none }

/-- Drag branch of handleMouseMove (lines 275-284): new position is the
pointer position minus the recorded offset, clamped componentwise with
the measured window size and the viewport size. -/
def clampDragPosition (client dragStart : Point) (width height viewW viewH : ℚ) :
    Point :=
  let newX := client.x - dragStart.x
  let newY := client.y - dragStart.y
  let maxX := viewW - width
  let maxY := viewH - height
  { x := max 0 (min newX maxX), y := max 0 (min newY maxY) }

/-- Resize branch of handleMouseMove (lines 285-289): the recorded start
size plus the pointer delta, floored at 300 by 200. -/
def resizeSize (resizeStart : WinSize) (client dragStart : Point) : WinSize :=
  { width := max 300 (resizeStart.width + (client.x - dragStart.x)),
    height := max 200 (resizeStart.height + (client.y - dragStart.y)) }

/-- The user-interaction events the component handles.  A mouseMove
event carries the pointer position, the modal size measured by
getBoundingClientRect, and the viewport size read from the window. -/
inductive ViewerEvent where
  | openModal (viewW viewH : ℚ)
  | closeModal
  | mouseDownDrag (client : Point)
  | mouseDownResize (client : Point)
  | mouseMove (client : Point) (measuredW measuredH viewW viewH : ℚ)
  | mouseUp
deriving Repr, DecidableEq

/-- One step of the component state machine, each arm translated from
the corresponding handler: handleOpenModal (247-252), handleCloseModal
(254-259), handleMouseDown (267-272), handleResizeMouseDown (297-302),
handleMouseMove (274-290), handleMouseUp (292-295). -/
def step (s : ViewerState) : ViewerEvent → ViewerState
  | .openModal vw vh =>
      { s with isModalOpen := true,
               position := { x := vw / 8, y := vh / 8 },
               size := { width := 800, height := 600 },
               error := none }
  | .closeModal =>
      { s with isModalOpen := false, isDragging := false, isResizing := false,
               error := none }
  | .mouseDownDrag c =>
      { s with isDragging := true,
               dragStart := { x := c.x - s.position.x, y := c.y - s.position.y } }
  | .mouseDownResize c =>
      { s with isResizing := true, dragStart := c, resizeStart := s.size }
  | .mouseMove c w h vw vh =>
      if s.isDragging then
        { s with position := clampDragPosition c s.dragStart w h vw vh }
      else if s.isResizing then
        { s with size := resizeSize s.resizeStart c s.dragStart }
      else s
  | .mouseUp => { s with isDragging := false, isResizing := false }

/-- Running the state machine over a list of events. -/
def run (s : ViewerState) (evs : List ViewerEvent) : ViewerState :=
  evs.foldl step s

/-! ## Theorems: Remote Inference Client -/

/-- C1 counterexample: for generateQuestionsFromDocumentAI, a transport
failure whose response carries the structured body with detail "D" and
message "M" yields a normalized result whose message is "M" — the body
is returned as-is — and not "D" as the claim (detail first) states. -/
theorem docError_detail_not_used :
    (generateQuestionsFromDocumentAIOnError
        (.withResponse (some { detail := some "D", message := some "M" }))).message
      = some "M" ∧
    (generateQuestionsFromDocumentAIOnError
        (.withResponse (some { detail := some "D", message := some "M" }))).message
      ≠ some "D" := by
  exact ⟨rfl, by decide⟩

/-- C1 (amended): for the chat operation, the normalized message follows
the fallback priority chain (detail when present and non-empty, else
message when present and non-empty, else the generic fallback); for the
document, text and explanation operations, a truthy structured error
body is returned as-is, so the normalized message equals the body's own
message field, and only a falsy body yields the generic fallback. -/
theorem error_body_message_policy :
    (∀ b : ErrorBody,
      (generateQuestionsFromDocumentAIOnError (.withResponse (some b))).message
        = b.message) ∧
    ((generateQuestionsFromDocumentAIOnError (.withResponse none)).message
        = some aiServiceFallbackMsg) ∧
    (∀ b : ErrorBody,
      (generateQuestionsFromTextAIOnError (.withResponse (some b))).message
        = b.message) ∧
    ((generateQuestionsFromTextAIOnError (.withResponse none)).message
        = some aiServiceFallbackMsg) ∧
    (∀ b : ErrorBody,
      (explainAnswerChoiceAIOnError (.withResponse (some b))).message
        = b.message) ∧
    ((explainAnswerChoiceAIOnError (.withResponse none)).message
        = some aiExplainFallbackMsg) ∧
    (∀ (p : AIChatRequestPayload) (b : ErrorBody),
      (sendChatMessageToAIOnError p (.withResponse (some b))).message
        = some (specFallbackChain b.detail b.message chatDefaultErrorMsg)) := by
  refine ⟨fun b => rfl, rfl, fun b => rfl, rfl, fun b => rfl, rfl, fun p b => ?_⟩
  simp only [sendChatMessageToAIOnError, specFallbackChain, jsOrStr]

/-- C2 counterexample: on a pure network failure the chat operation
returns the generic unexpected-error message, which is not a string
mentioning a failure to connect (it does not even contain the substring
of the other three fallback strings). -/
theorem chat_noResponse_not_connect_msg :
    (sendChatMessageToAIOnError { message := "hi" } TransportFailure.noResponse).message
      = some "An unexpected error occurred with the AI chat service." ∧
    hasSubList "Failed to connect".toList
      "An unexpected error occurred with the AI chat service.".toList = false := by
  exact ⟨rfl, by decide⟩

/-- C2 (amended): on a transport failure with no response at all, every
operation returns success false; the document, text and explanation
operations return their fixed Failed-to-connect fallback string, while
the chat operation returns its fixed generic unexpected-error string. -/
theorem noResponse_fallback_results :
    ((generateQuestionsFromDocumentAIOnError .noResponse).success = some false ∧
      (generateQuestionsFromDocumentAIOnError .noResponse).message
        = some "Failed to connect to the AI service or an unexpected error occurred.") ∧
    ((generateQuestionsFromTextAIOnError .noResponse).success = some false ∧
      (generateQuestionsFromTextAIOnError .noResponse).message
        = some "Failed to connect to the AI service or an unexpected error occurred.") ∧
    ((explainAnswerChoiceAIOnError .noResponse).success = some false ∧
      (explainAnswerChoiceAIOnError .noResponse).message
        = some "Failed to connect to the AI explanation service or an unexpected error occurred.") ∧
    (∀ p : AIChatRequestPayload,
      (sendChatMessageToAIOnError p .noResponse).success = some false ∧
      (sendChatMessageToAIOnError p .noResponse).message
        = some "An unexpected error occurred with the AI chat service.") := by
  exact ⟨⟨rfl, rfl⟩, ⟨rfl, rfl⟩, ⟨rfl, rfl⟩, fun p => ⟨rfl, rfl⟩⟩

/-- C3: on every failure path of the chat operation, the returned
thread_id equals the thread_id supplied in the request payload (also
when that supplied value is the empty string), or the empty string when
the payload supplied none, and the returned response is the empty
string. -/
theorem chat_failure_thread_id_echo (p : AIChatRequestPayload) (f : TransportFailure) :
    (∀ t : String, p.thread_id = some t → (sendChatMessageToAIOnError p f).thread_id = t) ∧
    (p.thread_id = none → (sendChatMessageToAIOnError p f).thread_id = "") ∧
    (sendChatMessageToAIOnError p f).response = "" := by
  refine ⟨?_, ?_, rfl⟩
  · intro t ht
    simp only [sendChatMessageToAIOnError, jsOrStr, ht]
    split
    · rename_i h
      exact h.symm
    · rfl
  · intro ht
    simp [sendChatMessageToAIOnError, jsOrStr, ht]

/-- C3 witness: concrete chat payload carrying thread id T7, failing
with no response, echoes T7. -/
theorem chat_failure_thread_id_echo_witness :
    ({ message := "hi", thread_id := some "T7" } : AIChatRequestPayload).thread_id
      = some "T7" ∧
    (sendChatMessageToAIOnError { message := "hi", thread_id := some "T7" }
        TransportFailure.noResponse).thread_id = "T7" :=
  ⟨rfl, (chat_failure_thread_id_echo { message := "hi", thread_id := some "T7" }
    TransportFailure.noResponse).1 "T7" rfl⟩

/-- C10: on every transport-successful chat call the returned record has
success true — the explicit success key written after the spread of the
decoded body overwrites any success value the body itself carried — and
the response, thread_id and message fields are taken from the body. -/
theorem chat_success_flag_override (body : ChatBackendBody) :
    (sendChatMessageToAIOnSuccess body).success = some true ∧
    (sendChatMessageToAIOnSuccess body).response = body.response ∧
    (sendChatMessageToAIOnSuccess body).thread_id = body.thread_id ∧
    (sendChatMessageToAIOnSuccess body).message = body.message :=
  ⟨rfl, rfl, rfl, rfl⟩

/-! ## Theorems: Media Viewer -/

/-- Helper: a substring search succeeds when the pattern sits at the
head of the searched list. -/
theorem hasSubList_here (pat suf : List Char) : hasSubList pat (pat ++ suf) = true := by
  cases pat with
  | nil => cases suf <;> simp [hasSubList]
  | cons p pt =>
      simp only [List.cons_append, hasSubList, List.append_eq]
      rw [show p :: (pt ++ suf) = (p :: pt) ++ suf from rfl, List.take_left]
      simp

/-- Helper: a substring search succeeds when the pattern occurs anywhere
in the searched list. -/
theorem hasSubList_middle (pat pre suf : List Char) :
    hasSubList pat (pre ++ (pat ++ suf)) = true := by
  induction pre with
  | nil => simpa using hasSubList_here pat suf
  | cons c cs ih =>
      simp only [List.cons_append, hasSubList, List.append_eq]
      rw [ih]
      simp

/-- C6: a descriptor whose path is the YouTube watch url with video id
ABC123 resolves to the corresponding embed url. -/
theorem resolveMediaUrl_youtube_watch :
    resolveMediaUrl { path := some "https://www.youtube.com/watch?v=ABC123" }
      = some "https://www.youtube.com/embed/ABC123" := by decide

/-- C7: render-strategy selection is first-match-wins in the stated
order.  Whenever the descriptor path matches the YouTube watch or
short-link pattern, the YouTube embedded-frame strategy is selected, no
matter what mimetype the descriptor declares; and for every descriptor
the selection equals the top-to-bottom first-match evaluation of the
ordered rule list (YouTube, website, image, video, pdf, word-processor
document, generic download link). -/
theorem renderMedia_first_match_order (m : MediaDescriptor) (p : String)
    (hpath : m.path = some p) (hyt : ytMatch p ≠ none) :
    renderMedia m = RenderStrategy.youtubeFrame ∧
    ∀ m' : MediaDescriptor, renderMedia m' = firstMatch (orderedChecks m') := by
  constructor
  · obtain ⟨vid, hvid⟩ : ∃ v, ytMatch p = some v := by
      cases hv : ytMatch p with
      | none => exact absurd hv hyt
      | some v => exact ⟨v, rfl⟩
    have hp0 : p ≠ "" := by
      intro h0
      subst h0
      exact hyt rfl
    have hres : resolveMediaUrl m = some ("https://www.youtube.com/embed/" ++ vid) := by
      simp [resolveMediaUrl, hpath, hp0, hvid]
    have hsplit : ("https://www.youtube.com/embed/" ++ vid).toList
        = "https://www.".toList ++ ("youtube.com/embed/".toList ++ vid.toList) := by
      simp only [String.toList, String.data_append, ← List.append_assoc]
      rfl
    have hinc : strIncludes ("https://www.youtube.com/embed/" ++ vid)
        "youtube.com/embed/" = true := by
      unfold strIncludes
      rw [hsplit]
      exact hasSubList_middle _ _ _
    have hyoutube : isYouTubeOf m = true := by
      unfold isYouTubeOf
      rw [hres]
      exact hinc
    simp [renderMedia, hyoutube]
  · intro m'
    rfl

/-- C7 witness: the concrete YouTube watch descriptor that also declares
an image mimetype still selects the YouTube strategy. -/
theorem renderMedia_first_match_order_witness :
    ({ path := some "https://www.youtube.com/watch?v=ABC123",
        mimetype := some "image/png" } : MediaDescriptor).path
      = some "https://www.youtube.com/watch?v=ABC123" ∧
    ytMatch "https://www.youtube.com/watch?v=ABC123" ≠ none ∧
    renderMedia ({ path := some "https://www.youtube.com/watch?v=ABC123",
                   mimetype := some "image/png" } : MediaDescriptor)
      = RenderStrategy.youtubeFrame :=
  ⟨rfl, by decide, (renderMedia_first_match_order _ _ rfl (by decide)).1⟩

/-- C8: a media descriptor that is absent, or whose path is absent or
the empty string, makes the component render nothing. -/
theorem mediaDisplay_no_path (media : Option MediaDescriptor)
    (h : media = none ∨ ∃ m : MediaDescriptor, media = some m ∧
      (m.path = none ∨ m.path = some "")) :
    mediaDisplay media = none := by
  rcases h with rfl | ⟨m, rfl, hp | hp⟩
  · rfl
  · simp [mediaDisplay, hp]
  · simp [mediaDisplay, hp]

/-- C8 witness: a descriptor present but with the empty path renders
nothing. -/
theorem mediaDisplay_no_path_witness :
    ((some ({ path := some "" } : MediaDescriptor) = none ∨
      ∃ m : MediaDescriptor, some ({ path := some "" } : MediaDescriptor) = some m ∧
        (m.path = none ∨ m.path = some ""))) ∧
    mediaDisplay (some { path := some "" }) = none :=
  ⟨Or.inr ⟨_, rfl, Or.inr rfl⟩, mediaDisplay_no_path _ (Or.inr ⟨_, rfl, Or.inr rfl⟩)⟩

/-- Helper: every step of the viewer state machine preserves the size
floor of 300 by 200. -/
theorem step_size_floor (s : ViewerState) (e : ViewerEvent)
    (h : 300 ≤ s.size.width ∧ 200 ≤ s.size.height) :
    300 ≤ (step s e).size.width ∧ 200 ≤ (step s e).size.height := by
  cases e with
  | openModal vw vh => exact ⟨by norm_num [step], by norm_num [step]⟩
  | closeModal => exact h
  | mouseDownDrag c => exact h
  | mouseDownResize c => exact h
  | mouseUp => exact h
  | mouseMove c w hgt vw vh =>
      simp only [step]
      split
      · exact h
      · split
        · exact ⟨le_max_left _ _, le_max_left _ _⟩
        · exact h

/-- Helper: the size floor of 300 by 200 is an inductive invariant of
every event run. -/
theorem run_size_floor (evs : List ViewerEvent) :
    ∀ s : ViewerState, 300 ≤ s.size.width ∧ 200 ≤ s.size.height →
      300 ≤ (run s evs).size.width ∧ 200 ≤ (run s evs).size.height := by
  induction evs with
  | nil => exact fun s h => h
  | cons e rest ih => exact fun s h => ih (step s e) (step_size_floor s e h)

/-- C5: in every state reachable from the initial component state by any
event sequence the size satisfies width at least 300 and height at
least 200; and concretely, opening the viewer (size 800 by 600) and
dragging the resize handle by (-1000, -1000) yields exactly size 300 by
200. -/
theorem viewer_size_invariant :
    (∀ evs : List ViewerEvent,
      300 ≤ (run initialViewerState evs).size.width ∧
      200 ≤ (run initialViewerState evs).size.height) ∧
    (run initialViewerState
        [ViewerEvent.openModal 1600 900,
         ViewerEvent.mouseDownResize { x := 1000, y := 1000 },
         ViewerEvent.mouseMove { x := 0, y := 0 } 800 600 1600 900]).size
      = { width := 300, height := 200 } := by
  constructor
  · intro evs
    exact run_size_floor evs initialViewerState
      ⟨by norm_num [initialViewerState], by norm_num [initialViewerState]⟩
  · simp [run, step, initialViewerState, resizeSize, List.foldl]
    norm_num

/-- C4: a pointer move handled while dragging stores a position clamped
componentwise to the viewport: both coordinates are nonnegative and at
most viewport size minus window size.  The hypotheses that the measured
window does not exceed the viewport reflect the render-time cap of the
modal at 90 percent of each viewport dimension, which bounds every size
measured by getBoundingClientRect. -/
theorem drag_position_clamped (s : ViewerState) (c : Point) (w h vw vh : ℚ)
    (hdrag : s.isDragging = true) (hw : w ≤ vw) (hh : h ≤ vh) :
    0 ≤ (step s (.mouseMove c w h vw vh)).position.x ∧
    (step s (.mouseMove c w h vw vh)).position.x ≤ vw - w ∧
    0 ≤ (step s (.mouseMove c w h vw vh)).position.y ∧
    (step s (.mouseMove c w h vw vh)).position.y ≤ vh - h := by
  simp only [step, hdrag, if_true, clampDragPosition]
  refine ⟨le_max_left _ _, ?_, le_max_left _ _, ?_⟩
  · exact max_le (by linarith) (min_le_right _ _)
  · exact max_le (by linarith) (min_le_right _ _)

/-- C4 witness: a concrete dragging state, pointer far outside the
viewport, window 800 by 600 in a 1600 by 900 viewport: the stored
position lands inside the clamped range. -/
theorem drag_position_clamped_witness :
    ({ initialViewerState with isDragging := true } : ViewerState).isDragging = true ∧
    (800 : ℚ) ≤ 1600 ∧ (600 : ℚ) ≤ 900 ∧
    (0 ≤ (step { initialViewerState with isDragging := true }
        (ViewerEvent.mouseMove { x := 2000, y := 2000 } 800 600 1600 900)).position.x ∧
      (step { initialViewerState with isDragging := true }
        (ViewerEvent.mouseMove { x := 2000, y := 2000 } 800 600 1600 900)).position.x
        ≤ 1600 - 800 ∧
      0 ≤ (step { initialViewerState with isDragging := true }
        (ViewerEvent.mouseMove { x := 2000, y := 2000 } 800 600 1600 900)).position.y ∧
      (step { initialViewerState with isDragging := true }
        (ViewerEvent.mouseMove { x := 2000, y := 2000 } 800 600 1600 900)).position.y
        ≤ 900 - 600) :=
  ⟨rfl, by norm_num, by norm_num,
    drag_position_clamped _ _ 800 600 1600 900 rfl (by norm_num) (by norm_num)⟩

/-- Helper: running an event list extended by one event is one step
after the run of the list. -/
theorem run_append_single (s : ViewerState) (evs : List ViewerEvent) (e : ViewerEvent) :
    run s (evs ++ [e]) = step (run s evs) e := by
  simp [run, List.foldl_append]

/-- C9: an open action after any event history (in particular a second
open after dragging and resizing) sets the size to 800 by 600, the
position to an eighth of each viewport dimension, and clears the error
state, regardless of the geometry left by the earlier events. -/
theorem open_resets_geometry (evs : List ViewerEvent) (vw vh : ℚ) :
    (run initialViewerState (evs ++ [ViewerEvent.openModal vw vh])).size
      = { width := 800, height := 600 } ∧
    (run initialViewerState (evs ++ [ViewerEvent.openModal vw vh])).position
      = { x := vw / 8, y := vh / 8 } ∧
    (run initialViewerState (evs ++ [ViewerEvent.openModal vw vh])).error = none := by
  rw [run_append_single]
  exact ⟨rfl, rfl, rfl⟩

end Spec2Proof
